import Mathlib

/-!
Verification of the Agentic Compliance Query Pipeline
(src/docker/backend/rag_agent.py) against its specification.

The four stage functions, the initial state, and the top-level invoke
wrapper are embedded as total Lean functions.  External collaborators
(language model, embedding service, vector index) are modelled as an
oracle record of functions returning `Except String _`: an `Except.error`
value models the Python exception raised by the corresponding call.
Python dicts with insertion order are modelled as association lists;
floating-point similarity scores are modelled over `Rat` (the claims
under study do not depend on float rounding behaviour).
-/

namespace Reguscope

/-- A context item produced by `retrieval_node`, mirroring the dict built at
rag_agent.py lines 140-148. -/
structure ContextItem where
  content : String
  document_id : String
  section_number : String
  effective_date : String
  jurisdiction : String
  score : Rat
  sub_query : String
deriving Repr, DecidableEq

/-- A citation record, mirroring the dict built at rag_agent.py lines 198-205. -/
structure CitationRecord where
  document_id : String
  section_number : String
  effective_date : String
  jurisdiction : String
  relevance_score : Rat
  snippet : String
deriving Repr, DecidableEq

/-- A value of the `citations` mapping (`Dict[str, Any]` in the source):
a `CitationRecord` on the synthesis success path, a plain string under the
`error` key of the orchestrator's catch-all. -/
inductive CitationValue where
  | record : CitationRecord → CitationValue
  | str : String → CitationValue
deriving Repr, DecidableEq

/-- The pipeline state (`AgentState` TypedDict, rag_agent.py lines 63-71).
`citations` is an insertion-ordered mapping, modelled as an association list. -/
structure AgentState where
  original_query : String
  decomposed_queries : List String
  retrieved_contexts : List ContextItem
  synthesized_answer : String
  citations : List (String × CitationValue)
  validation_passed : Bool
  error : Option String
deriving Repr, DecidableEq

/-- Payload attached to a vector-index search hit; `none` models a key absent
from the Qdrant payload (each read in the source uses `.get` with a default). -/
structure Payload where
  text_preview : Option String
  document_ID : Option String
  section_number : Option String
  effective_date : Option String
  jurisdiction : Option String
deriving Repr, DecidableEq

/-- One vector-index search hit: a payload plus a similarity score. -/
structure SearchResult where
  payload : Payload
  score : Rat
deriving Repr, DecidableEq

/-- The external collaborators, as oracles.
`llm prompt max_tokens temperature` models `llm.invoke(...)` of the
`CloudRunLLM` wrapper: `Except.error e` models the exception it raises on
timeout or transport failure.  `encode` models
`embeddings_model.encode(...).tolist()`.  `vector_search` models the raw
rank-ordered hit list of the index for a query vector, before the `limit`
parameter of `qdrant_client.search` is applied. -/
structure ExternalServices where
  llm : String → Nat → Rat → Except String String
  encode : String → Except String (List Rat)
  vector_search : List Rat → Except String (List SearchResult)

/-- Models `qdrant_client.search(collection_name=..., query_vector=v,
limit=limit, with_payload=True)`: the index contract returns at most `limit`
hits, in rank order (rag_agent.py lines 132-137). -/
def qdrant_search (env : ExternalServices) (v : List Rat) (limit : Nat) :
    Except String (List SearchResult) :=
  (env.vector_search v).map (fun rs => rs.take limit)

/-- The decomposition prompt built at rag_agent.py lines 82-88. -/
def decomposition_prompt (original_query : String) : String :=
  "Task: Break this regulatory question into 2-3 specific sub-questions.\n\nQuestion: "
    ++ original_query
    ++ "\n\nFormat: Return only numbered sub-questions, one per line.\n\nSub-questions:"

/-- Python `str.strip()`: drop whitespace from both ends. -/
def pyStrip (s : List Char) : List Char :=
  ((s.dropWhile Char.isWhitespace).reverse.dropWhile Char.isWhitespace).reverse

/-- Python `str.split(newline)`: split on the newline character;
the empty string yields one empty field. -/
def splitOnNewline : List Char → List (List Char)
  | [] => [[]]
  | c :: cs =>
      let r := splitOnNewline cs
      if c = '\n' then [] :: r
      else
        match r with
        | [] => [[c]]
        | h :: t => (c :: h) :: t

/-- The per-line filter of the decomposition parser (rag_agent.py line 97):
keep a line iff it is non-blank after stripping and any of its first three
raw characters is a digit. -/
def lineQualifies (line : List Char) : Bool :=
  !(pyStrip line).isEmpty && (line.take 3).any Char.isDigit

/-- The decomposition response parser (rag_agent.py lines 94-98): strip the
response, split on newlines, keep qualifying lines, strip each kept line. -/
def parseSubQueries (response : String) : List String :=
  ((splitOnNewline (pyStrip response.toList)).filter lineQualifies).map
    (fun l => (pyStrip l).asString)

/-- Node 1, `query_decomposition_node` (rag_agent.py lines 75-112).
The `Except.error` branch of the oracle models the `except` clause. -/
def query_decomposition_node (env : ExternalServices) (state : AgentState) :
    AgentState :=
  match env.llm (decomposition_prompt state.original_query) 300 (3/10) with
  | .ok response =>
      let sub_queries := parseSubQueries response
      let sub_queries := if sub_queries.isEmpty then [state.original_query] else sub_queries
      { state with decomposed_queries := sub_queries }
  | .error e =>
      { state with
          decomposed_queries := [state.original_query],
          error := some ("Decomposition error: " ++ e) }

/-- Maps one search hit to a `ContextItem` (rag_agent.py lines 139-149),
with the source's defaults for absent payload keys. -/
def toContext (sub_query : String) (r : SearchResult) : ContextItem :=
  { content := r.payload.text_preview.getD ""
    document_id := r.payload.document_ID.getD "Unknown"
    section_number := r.payload.section_number.getD "N/A"
    effective_date := r.payload.effective_date.getD "Unknown"
    jurisdiction := r.payload.jurisdiction.getD "Unknown"
    score := r.score
    sub_query := sub_query }

/-- The body of the per-sub-query `try` block of `retrieval_node`
(rag_agent.py lines 125-149): embed, search with limit 3, map hits. -/
def retrieveFor (env : ExternalServices) (sub_query : String) :
    Except String (List ContextItem) :=
  match env.encode sub_query with
  | .error e => .error e
  | .ok v =>
      match qdrant_search env v 3 with
      | .error e => .error e
      | .ok results => .ok (results.map (toContext sub_query))

/-- The `for sub_query in state["decomposed_queries"]` loop of
`retrieval_node`: successes append their contexts, a per-sub-query failure
overwrites `error` and contributes nothing (rag_agent.py lines 122-153). -/
def retrieveLoop (env : ExternalServices) (queries : List String)
    (acc : List ContextItem) (err : Option String) :
    List ContextItem × Option String :=
  match queries with
  | [] => (acc, err)
  | q :: rest =>
      match retrieveFor env q with
      | .ok ctxs => retrieveLoop env rest (acc ++ ctxs) err
      | .error e => retrieveLoop env rest acc (some ("Retrieval error: " ++ e))

/-- Node 2, `retrieval_node` (rag_agent.py lines 116-158). -/
def retrieval_node (env : ExternalServices) (state : AgentState) : AgentState :=
  let r := retrieveLoop env state.decomposed_queries [] state.error
  { state with retrieved_contexts := r.1, error := r.2 }

/-- One "[Source N]" block of the grounding context string
(rag_agent.py lines 170-173); `i` is the zero-based context index. -/
def contextBlock (i : Nat) (ctx : ContextItem) : String :=
  "[Source " ++ toString (i + 1) ++ "] Doc: " ++ ctx.document_id
    ++ ", Section: " ++ ctx.section_number ++ "\n" ++ ctx.content

/-- The grounding context string `context_str` (rag_agent.py lines 170-173). -/
def context_str (contexts : List ContextItem) : String :=
  String.intercalate "\n\n" (contexts.enum.map (fun p => contextBlock p.1 p.2))

/-- The synthesis prompt built at rag_agent.py lines 176-189. -/
def synthesis_prompt (original_query : String) (contexts : List ContextItem) :
    String :=
  "You are a regulatory compliance expert. Answer this question using ONLY the provided sources.\n\nQuestion: "
    ++ original_query
    ++ "\n\nSources:\n"
    ++ context_str contexts
    ++ "\n\nInstructions:\n1. Answer directly and accurately\n2. Cite sources as [Source X]\n3. If information is missing, state it clearly\n4. Be concise but complete\n\nAnswer:"

/-- `round(x, 3)` over `Rat` (rag_agent.py line 203; the source rounds a
float, modelled here as rounding the rational score). -/
def round3 (q : Rat) : Rat :=
  ((round (q * 1000) : Int) : Rat) / 1000

/-- The citations mapping built on the synthesis success path
(rag_agent.py lines 196-205): one `source_<i+1>` entry per context,
in context order. -/
def buildCitations (contexts : List ContextItem) : List (String × CitationValue) :=
  contexts.enum.map (fun p =>
    ("source_" ++ toString (p.1 + 1),
     CitationValue.record
       { document_id := p.2.document_id
         section_number := p.2.section_number
         effective_date := p.2.effective_date
         jurisdiction := p.2.jurisdiction
         relevance_score := round3 p.2.score
         snippet := (p.2.content.toList.take 200).asString ++ "..." }))

/-- Node 3, `synthesis_node` (rag_agent.py lines 162-216).  The
`Except.error` branch of the oracle models the `except` clause: sentinel
answer, empty citations, `error` overwritten with the failure detail. -/
def synthesis_node (env : ExternalServices) (state : AgentState) : AgentState :=
  match env.llm (synthesis_prompt state.original_query state.retrieved_contexts) 600 (1/2) with
  | .ok answer =>
      { state with
          synthesized_answer := (pyStrip answer.toList).asString,
          citations := buildCitations state.retrieved_contexts }
  | .error e =>
      { state with
          synthesized_answer := "Error generating answer.",
          citations := [],
          error := some ("Synthesis error: " ++ e) }

/-- Node 4, `validation_node` (rag_agent.py lines 220-237). -/
def validation_node (state : AgentState) : AgentState :=
  let has_content := state.synthesized_answer.length > 50
  let has_citations := state.citations.length > 0
  { state with validation_passed := has_content && has_citations }

/-- The compiled linear workflow `decompose -> retrieve -> synthesize ->
validate` (rag_agent.py lines 241-256). -/
def runPipeline (env : ExternalServices) (state : AgentState) : AgentState :=
  validation_node (synthesis_node env (retrieval_node env (query_decomposition_node env state)))

/-- The fresh state built by `agent_workflow_invoke_sync`
(rag_agent.py lines 270-278). -/
def initial_state (query : String) : AgentState :=
  { original_query := query
    decomposed_queries := []
    retrieved_contexts := []
    synthesized_answer := ""
    citations := []
    validation_passed := false
    error := none }

/-- The result shape returned to the caller: exactly an answer and a
citations mapping (rag_agent.py lines 283-293). -/
structure InvokeResult where
  answer : String
  citations : List (String × CitationValue)
deriving Repr, DecidableEq

/-- The apology string of the orchestrator's catch-all
(rag_agent.py line 291). -/
def apologyAnswer (e : String) : String :=
  "I encountered an error processing your compliance query: " ++ e

/-- Top-level `agent_workflow_invoke_sync` (rag_agent.py lines 263-293),
parametrised by the outcome of `agent_graph.invoke`: `Except.ok` is a
completed graph run, `Except.error e` models any exception escaping a stage
(caught by the orchestrator's `except` clause). -/
def agent_workflow_invoke_sync (graphResult : Except String AgentState) :
    InvokeResult :=
  match graphResult with
  | .ok final => { answer := final.synthesized_answer, citations := final.citations }
  | .error e => { answer := apologyAnswer e, citations := [("error", CitationValue.str e)] }

/-- Oracle whose language-model call always fails; embedding and index
succeed with no hits. -/
def envLLMFail : ExternalServices :=
  { llm := fun _ _ _ => .error "boom"
    encode := fun _ => .ok []
    vector_search := fun _ => .ok [] }

/-- Oracle whose language-model call returns the empty string. -/
def envEmptyResp : ExternalServices :=
  { llm := fun _ _ _ => .ok ""
    encode := fun _ => .ok []
    vector_search := fun _ => .ok [] }

/-- Oracle whose language-model call returns four numbered lines. -/
def envFourLines : ExternalServices :=
  { llm := fun _ _ _ => .ok "1. a\n2. b\n3. c\n4. d"
    encode := fun _ => .ok []
    vector_search := fun _ => .ok [] }

/-- Oracle whose language-model call returns a fixed short answer. -/
def envOkShort : ExternalServices :=
  { llm := fun _ _ _ => .ok "fine"
    encode := fun _ => .ok []
    vector_search := fun _ => .ok [] }

/-- A concrete retrieved context used in witnesses and counterexamples. -/
def ctx0 : ContextItem :=
  { content := "c0", document_id := "d0", section_number := "s0"
    effective_date := "e0", jurisdiction := "j0", score := 0, sub_query := "q" }

/-- A second concrete retrieved context. -/
def ctx1 : ContextItem :=
  { content := "c1", document_id := "d1", section_number := "s1"
    effective_date := "e1", jurisdiction := "j1", score := 1, sub_query := "q" }

/-- A concrete answer of length exactly 51, one past the validation
threshold. -/
def answer51 : String := (List.replicate 51 'a').asString

end Reguscope

namespace Reguscope

/-- Keys of the synthesis citations mapping are `source_1 .. source_n` for a
context list of length `n`, in context order. -/
theorem buildCitations_map_fst (l : List ContextItem) :
    (buildCitations l).map Prod.fst =
      (List.range l.length).map (fun i => "source_" ++ toString (i + 1)) := by
  unfold buildCitations
  rw [List.map_map]
  have h : (Prod.fst ∘ fun p : Nat × ContextItem =>
      ("source_" ++ toString (p.1 + 1),
       CitationValue.record
         { document_id := p.2.document_id
           section_number := p.2.section_number
           effective_date := p.2.effective_date
           jurisdiction := p.2.jurisdiction
           relevance_score := round3 p.2.score
           snippet := (p.2.content.toList.take 200).asString ++ "..." })) =
      ((fun i => "source_" ++ toString (i + 1)) ∘ Prod.fst) := rfl
  rw [h, ← List.map_map, List.enum_map_fst]

/-- A successful per-sub-query retrieval contributes at most 3 contexts: the
search is issued with `limit = 3`. -/
theorem retrieveFor_len_le (env : ExternalServices) (q : String)
    (ctxs : List ContextItem) (h : retrieveFor env q = .ok ctxs) :
    ctxs.length ≤ 3 := by
  unfold retrieveFor qdrant_search at h
  cases he : env.encode q with
  | error e => rw [he] at h; exact absurd h (by simp)
  | ok v =>
      rw [he] at h
      dsimp only at h
      cases hs : env.vector_search v with
      | error e => rw [hs] at h; exact absurd h (by simp [Except.map])
      | ok rs =>
          rw [hs] at h
          simp [Except.map] at h
          rw [← h]
          simp [List.length_map]

/-- The retrieval loop over the sub-queries adds at most 3 contexts per
sub-query to the accumulator. -/
theorem retrieveLoop_len_le (env : ExternalServices) (queries : List String)
    (acc : List ContextItem) (err : Option String) :
    (retrieveLoop env queries acc err).1.length ≤ acc.length + queries.length * 3 := by
  induction queries generalizing acc err with
  | nil => simp [retrieveLoop]
  | cons q rest ih =>
      unfold retrieveLoop
      cases h : retrieveFor env q with
      | ok ctxs =>
          have h1 := ih (acc ++ ctxs) err
          have h2 := retrieveFor_len_le env q ctxs h
          simp [List.length_append] at h1
          simp [List.length_cons]
          omega
      | error e =>
          have h1 := ih acc (some ("Retrieval error: " ++ e))
          simp [List.length_cons]
          omega

/-- The retrieval loop never resets a set `error` field to `none`: each step
either keeps the accumulator or overwrites it with `some _`. -/
theorem retrieveLoop_err_ne_none (env : ExternalServices) (queries : List String)
    (acc : List ContextItem) (err : Option String) (h : err ≠ none) :
    (retrieveLoop env queries acc err).2 ≠ none := by
  induction queries generalizing acc err with
  | nil => simpa [retrieveLoop] using h
  | cons q rest ih =>
      unfold retrieveLoop
      cases hr : retrieveFor env q with
      | ok ctxs => exact ih (acc ++ ctxs) err h
      | error e => exact ih acc (some ("Retrieval error: " ++ e)) (by simp)

/-- Claim C1: for every outcome of the graph run, including any exception
escaping a stage, `agent_workflow_invoke_sync` returns (it is total) a result
holding exactly an `answer` and a `citations` field (the `InvokeResult` type);
on a completed run these are the final answer and citations, and when an
exception escapes the answer is the fixed apology string embedding the
failure detail and the citations mapping holds only an `error` key with that
detail. -/
theorem invoke_sync_contract :
    (∀ s : AgentState, agent_workflow_invoke_sync (Except.ok s) =
      { answer := s.synthesized_answer, citations := s.citations }) ∧
    (∀ e : String, agent_workflow_invoke_sync (Except.error e) =
      { answer := "I encountered an error processing your compliance query: " ++ e,
        citations := [("error", CitationValue.str e)] }) :=
  ⟨fun _ => rfl, fun _ => rfl⟩

/-- Claim C2: for every non-empty `original_query` and every language-model
behaviour, `query_decomposition_node` (a total function, hence never raising)
leaves `decomposed_queries` non-empty, and in both fallback cases — the call
fails, or the response parses to zero numbered lines — the field equals the
one-element sequence `[original_query]`. -/
theorem decomposition_nonempty_fallback (env : ExternalServices) (state : AgentState)
    (_hq : state.original_query ≠ "") :
    (query_decomposition_node env state).decomposed_queries ≠ [] ∧
    (∀ e, env.llm (decomposition_prompt state.original_query) 300 (3/10) = .error e →
      (query_decomposition_node env state).decomposed_queries = [state.original_query]) ∧
    (∀ r, env.llm (decomposition_prompt state.original_query) 300 (3/10) = .ok r →
      parseSubQueries r = [] →
      (query_decomposition_node env state).decomposed_queries = [state.original_query]) := by
  cases h : env.llm (decomposition_prompt state.original_query) 300 (3/10) with
  | ok r =>
      by_cases hp : (parseSubQueries r).isEmpty
      · refine ⟨?_, ?_, ?_⟩
        · simp [query_decomposition_node, h, hp]
        · intro e he; exact absurd he (by simp)
        · intro r2 hr2 _; simp [query_decomposition_node, h, hp]
      · refine ⟨?_, ?_, ?_⟩
        · simp only [query_decomposition_node, h, hp, if_false]
          simpa [List.isEmpty_iff] using hp
        · intro e he; exact absurd he (by simp)
        · intro r2 hr2 hp2
          injection hr2 with hr2
          subst hr2
          exact absurd (by simp [hp2] : (parseSubQueries r).isEmpty = true) hp
  | error e0 =>
      refine ⟨?_, ?_, ?_⟩
      · simp [query_decomposition_node, h]
      · intro e he; simp [query_decomposition_node, h]
      · intro r hr _; exact absurd hr (by simp)

/-- Claim C2 witness: the fallback to the original query observed at a
concrete query under a failing language-model call. -/
theorem decomposition_nonempty_fallback_witness :
    (query_decomposition_node envLLMFail (initial_state "q")).decomposed_queries = ["q"] :=
  (decomposition_nonempty_fallback envLLMFail (initial_state "q") (by decide)).2.1 "boom" rfl

/-- Claim C3 counterexample: after a `synthesis_node` run in which the
language-model call fails, the state has one retrieved context but an empty
citations mapping, so the citation keys are not `source_1 .. source_n` with
`n` the number of retrieved contexts — the claim quantified over every
post-synthesis state is false. -/
theorem synthesis_citation_keys_cex :
    (synthesis_node envLLMFail
        { initial_state "q" with retrieved_contexts := [ctx0] }).citations.map Prod.fst ≠
      (List.range ((synthesis_node envLLMFail
        { initial_state "q" with retrieved_contexts := [ctx0] }).retrieved_contexts.length)).map
        (fun i => "source_" ++ toString (i + 1)) := by decide

/-- Claim C3 amended: whenever the synthesis language-model call succeeds,
the keys of `citations` are exactly `source_1 .. source_n` with
`n = len(retrieved_contexts)`, in insertion order matching the context order,
with one citation built per retrieved context regardless of whether the
synthesized text references it. -/
theorem synthesis_citation_keys_on_success (env : ExternalServices) (state : AgentState)
    (r : String)
    (h : env.llm (synthesis_prompt state.original_query state.retrieved_contexts) 600 (1/2) = .ok r) :
    (synthesis_node env state).citations.map Prod.fst =
      (List.range ((synthesis_node env state).retrieved_contexts.length)).map
        (fun i => "source_" ++ toString (i + 1)) ∧
    (synthesis_node env state).citations = buildCitations state.retrieved_contexts := by
  refine ⟨?_, ?_⟩ <;> simp only [synthesis_node, h]
  exact buildCitations_map_fst state.retrieved_contexts

/-- Claim C3 witness: two retrieved contexts and a successful call give keys
`source_1, source_2`. -/
theorem synthesis_citation_keys_on_success_witness :
    (synthesis_node envOkShort
        { initial_state "q" with retrieved_contexts := [ctx0, ctx1] }).citations.map Prod.fst =
      ["source_1", "source_2"] := by
  have h := synthesis_citation_keys_on_success envOkShort
    { initial_state "q" with retrieved_contexts := [ctx0, ctx1] } "fine" rfl
  rw [h.1]; decide

/-- Claim C4: `validation_node` sets `validation_passed` to true iff the
synthesized answer is longer than 50 characters and the citations mapping is
non-empty; an answer of length exactly 50 yields false, and one of length 51
with a non-empty citations mapping yields true. -/
theorem validation_passed_iff (state : AgentState) :
    ((validation_node state).validation_passed = true ↔
      (50 < state.synthesized_answer.length ∧ 0 < state.citations.length)) ∧
    (state.synthesized_answer.length = 50 →
      (validation_node state).validation_passed = false) ∧
    (state.synthesized_answer.length = 51 → 0 < state.citations.length →
      (validation_node state).validation_passed = true) := by
  refine ⟨?_, ?_, ?_⟩
  · simp [validation_node]
  · intro h50; simp [validation_node, h50]
  · intro h51 hc; simp [validation_node, h51, hc]

/-- Claim C4 witness: a 51-character answer with one citation passes
validation. -/
theorem validation_passed_iff_witness :
    (validation_node { initial_state "q" with
        synthesized_answer := answer51,
        citations := [("source_1", CitationValue.str "x")] }).validation_passed = true :=
  (validation_passed_iff _).2.2 (by decide) (by decide)

/-- Claim C5: whenever the synthesis language-model call fails,
`synthesis_node` (a total function, hence never raising past its boundary)
sets the answer to the fixed sentinel string, empties the citations mapping,
and records the failure detail in `error`. -/
theorem synthesis_failure_contract (env : ExternalServices) (state : AgentState)
    (e : String)
    (h : env.llm (synthesis_prompt state.original_query state.retrieved_contexts) 600 (1/2) = .error e) :
    (synthesis_node env state).synthesized_answer = "Error generating answer." ∧
    (synthesis_node env state).citations = [] ∧
    (synthesis_node env state).error = some ("Synthesis error: " ++ e) := by
  refine ⟨?_, ?_, ?_⟩ <;> simp only [synthesis_node, h]

/-- Claim C5 witness: the sentinel answer observed at a concrete state under
a failing language-model call. -/
theorem synthesis_failure_contract_witness :
    (synthesis_node envLLMFail (initial_state "q")).synthesized_answer =
      "Error generating answer." :=
  (synthesis_failure_contract envLLMFail (initial_state "q") "boom" rfl).1

/-- Claim C6 counterexample: a language-model response with four numbered
lines yields four decomposed queries — the parser enforces no bound of 3, so
the claim is false. -/
theorem decomposition_bound_cex :
    ¬ ((query_decomposition_node envFourLines (initial_state "q")).decomposed_queries.length ≤ 3) := by
  decide

/-- Claim C6 amended: the 2-3 bound is only requested in the prompt, not
enforced; on a successful call `decomposed_queries` has exactly
`max 1 p` elements, where `p` is the number of response lines that are
non-blank and contain a digit among their first three characters. -/
theorem decomposition_parse_length (env : ExternalServices) (state : AgentState)
    (r : String)
    (h : env.llm (decomposition_prompt state.original_query) 300 (3/10) = .ok r) :
    (query_decomposition_node env state).decomposed_queries.length =
      max 1 (parseSubQueries r).length := by
  by_cases hp : (parseSubQueries r).isEmpty
  · have h0 : (parseSubQueries r).length = 0 := by
      simpa [List.isEmpty_iff] using hp
    simp [query_decomposition_node, h, hp, h0]
  · have h1 : 1 ≤ (parseSubQueries r).length := by
      rcases List.isEmpty_iff.not.mp hp with h2
      have := List.length_pos.mpr (by simpa [List.isEmpty_iff] using hp)
      omega
    simp [query_decomposition_node, h, hp]
    omega

/-- Claim C6 witness: the amended length formula evaluated at the four-line
response. -/
theorem decomposition_parse_length_witness :
    (query_decomposition_node envFourLines (initial_state "q")).decomposed_queries.length =
      max 1 (parseSubQueries "1. a\n2. b\n3. c\n4. d").length :=
  decomposition_parse_length envFourLines (initial_state "q") "1. a\n2. b\n3. c\n4. d" rfl

/-- Claim C7 counterexample: on an empty (successful) response the stage
falls back to `[original_query]` but leaves `error` at `none` — no diagnostic
is recorded, so the claim is false. -/
theorem decomposition_silent_fallback_cex :
    (query_decomposition_node envEmptyResp (initial_state "q")).decomposed_queries = ["q"] ∧
    (query_decomposition_node envEmptyResp (initial_state "q")).error = none := by decide

/-- Claim C7 amended: `query_decomposition_node` records a diagnostic in
`error` only when the language-model call itself fails; on any successful
response — including the parse-fallback cases — `error` is left unchanged. -/
theorem decomposition_error_only_on_llm_failure (env : ExternalServices) (state : AgentState) :
    (∀ e, env.llm (decomposition_prompt state.original_query) 300 (3/10) = .error e →
      (query_decomposition_node env state).decomposed_queries = [state.original_query] ∧
      (query_decomposition_node env state).error = some ("Decomposition error: " ++ e)) ∧
    (∀ r, env.llm (decomposition_prompt state.original_query) 300 (3/10) = .ok r →
      (query_decomposition_node env state).error = state.error) := by
  cases h : env.llm (decomposition_prompt state.original_query) 300 (3/10) with
  | ok r =>
      refine ⟨?_, ?_⟩
      · intro e he; exact absurd he (by simp)
      · intro r2 _; simp [query_decomposition_node, h]
  | error e0 =>
      refine ⟨?_, ?_⟩
      · intro e he
        injection he with he
        subst he
        refine ⟨?_, ?_⟩ <;> simp [query_decomposition_node, h]
      · intro r hr; exact absurd hr (by simp)

/-- Claim C7 witness: the diagnostic recorded under a failing language-model
call. -/
theorem decomposition_error_only_on_llm_failure_witness :
    (query_decomposition_node envLLMFail (initial_state "q")).error =
      some ("Decomposition error: " ++ "boom") :=
  ((decomposition_error_only_on_llm_failure envLLMFail (initial_state "q")).1 "boom" rfl).2

/-- Claim C8 counterexample: in a run where every language-model call fails,
decomposition (the first failing stage) records its diagnostic, but the
pipeline ends with the synthesis diagnostic instead — a later failing stage
replaces the `error` value, so the claim is false. -/
theorem error_overwritten_cex :
    (query_decomposition_node envLLMFail (initial_state "q")).error =
        some "Decomposition error: boom" ∧
    (runPipeline envLLMFail (initial_state "q")).error =
        some "Synthesis error: boom" ∧
    ("Synthesis error: boom" : String) ≠ "Decomposition error: boom" := by decide

/-- Claim C8 amended: once `error` is set it is never cleared back to `none`
by any later stage or by the whole pipeline, but a later failing stage may
replace its value with its own diagnostic, so the final value is that of the
last failing stage, not the first. -/
theorem pipeline_error_never_cleared (env : ExternalServices) (state : AgentState)
    (h : state.error ≠ none) :
    (query_decomposition_node env state).error ≠ none ∧
    (retrieval_node env state).error ≠ none ∧
    (synthesis_node env state).error ≠ none ∧
    (validation_node state).error = state.error ∧
    (runPipeline env state).error ≠ none := by
  have hdec : ∀ s : AgentState, s.error ≠ none →
      (query_decomposition_node env s).error ≠ none := by
    intro s hs
    cases hl : env.llm (decomposition_prompt s.original_query) 300 (3/10) with
    | ok r => simpa [query_decomposition_node, hl] using hs
    | error e => simp [query_decomposition_node, hl]
  have hret : ∀ s : AgentState, s.error ≠ none →
      (retrieval_node env s).error ≠ none := by
    intro s hs
    exact retrieveLoop_err_ne_none env s.decomposed_queries [] s.error hs
  have hsyn : ∀ s : AgentState, s.error ≠ none →
      (synthesis_node env s).error ≠ none := by
    intro s hs
    cases hl : env.llm (synthesis_prompt s.original_query s.retrieved_contexts) 600 (1/2) with
    | ok r => simp only [synthesis_node, hl]; exact hs
    | error e => simp only [synthesis_node, hl]; simp
  have hval : ∀ s : AgentState, (validation_node s).error = s.error := fun s => rfl
  refine ⟨hdec state h, hret state h, hsyn state h, hval state, ?_⟩
  unfold runPipeline
  rw [hval]
  exact hsyn _ (hret _ (hdec _ h))

/-- Claim C8 witness: an already-set error survives a fully successful
pipeline run. -/
theorem pipeline_error_never_cleared_witness :
    (runPipeline envOkShort
        { initial_state "q" with error := some "previous" }).error ≠ none :=
  (pipeline_error_never_cleared envOkShort
    { initial_state "q" with error := some "previous" } (by decide)).2.2.2.2

/-- Claim C9: after `retrieval_node`, the number of retrieved contexts is at
most 3 times the number of decomposed queries, 3 being the fixed per-query
limit passed to the vector-index search. -/
theorem retrieval_context_bound (env : ExternalServices) (state : AgentState) :
    (retrieval_node env state).retrieved_contexts.length ≤
      (retrieval_node env state).decomposed_queries.length * 3 := by
  have h := retrieveLoop_len_le env state.decomposed_queries [] state.error
  simpa [retrieval_node] using h

/-- Claim C10: whenever the synthesis language-model call fails, the
subsequent `validation_node` necessarily sets `validation_passed` to false:
the sentinel answer has length at most 50 and the citations mapping set on
that path is empty, so both validation conditions fail. -/
theorem synthesis_failure_validation_false (env : ExternalServices) (state : AgentState)
    (e : String)
    (h : env.llm (synthesis_prompt state.original_query state.retrieved_contexts) 600 (1/2) = .error e) :
    (validation_node (synthesis_node env state)).validation_passed = false ∧
    (synthesis_node env state).synthesized_answer.length ≤ 50 ∧
    (synthesis_node env state).citations = [] := by
  refine ⟨?_, ?_, ?_⟩
  · simp only [synthesis_node, h, validation_node]
    decide
  · simp only [synthesis_node, h]
    decide
  · simp only [synthesis_node, h]

/-- Claim C10 witness: validation fails after a concrete failing synthesis
run. -/
theorem synthesis_failure_validation_false_witness :
    (validation_node (synthesis_node envLLMFail (initial_state "q"))).validation_passed = false :=
  (synthesis_failure_validation_false envLLMFail (initial_state "q") "boom" rfl).1

end Reguscope
